import Mathlib

/-!
Shallow embedding of src/oauth.py (the OAuth 2.1 module) together with the
pieces of src/server.py configuration that the verified claims reference.

Modelling conventions:
- Python strings are Lean Strings; `params.get(k)` results are Option String.
- Python dicts are insertion-ordered association lists; dict assignment
  replaces the binding in place, dict iteration follows list order.
- `time.time()` is an abstract clock passed explicitly as a Nat; results of
  `secrets.token_hex(32)` are explicit fresh-string arguments.
- Query-parameter text is modelled in percent-decoded form: the urllib codec
  pair (parse_qs / urlencode) acts on the decoded text, so the percent
  translation is the identity on it.  All structural behaviour of the codecs
  (splitting on '&' and the first '=', dropping blank values and chunks
  without '=', grouping duplicate keys, taking only the first value when
  re-encoding) is modelled exactly.
- urlparse/urlunparse follow CPython 3.11 urlsplit/urlunsplit: tab/CR/LF
  removal, scheme detection and lowercasing, netloc extraction with the
  ValueError on mismatched brackets; matched-bracket hosts and non-ASCII
  netlocs are mapped to a distinguished unmodelled outcome that no theorem
  touches.
- `hashlib.sha256` and `base64.urlsafe_b64encode(...).rstrip(b"=")` are
  implemented concretely (FIPS 180-4 SHA-256 over UTF-8 bytes, base64url).
-/

/-- Server configuration handed to setup_oauth (src/oauth.py lines 8-24).
In src/server.py the static_token slot is always populated from
MCP_AUTH_TOKEN, but the oauth module itself treats it as optional. -/
structure Config where
  client_id : String
  client_secret : String
  public_url : String
  static_token : Option String
  deriving Repr, DecidableEq

/-- A stored authorization-code record (src/oauth.py lines 70-76).  The
request-derived fields keep the Option type of params.get; the method field
has already received the "plain" default of params.get at line 62. -/
structure CodeRecord where
  client_id : Option String
  redirect_uri : Option String
  code_challenge : Option String
  code_challenge_method : String
  expires_at : Nat
  deriving Repr, DecidableEq

/-- The two mutable stores captured by the setup_oauth closure
(src/oauth.py lines 23-24): auth_codes is a dict, access_tokens a set. -/
structure OAuthState where
  auth_codes : List (String × CodeRecord)
  access_tokens : List String
  deriving Repr, DecidableEq

/-- Python dict assignment d[k] = v: replace the binding in place when the
key is present, otherwise append it at the end. -/
def dictSet {α : Type} : List (String × α) → String → α → List (String × α)
  | [], k, v => [(k, v)]
  | (k', v') :: d, k, v =>
    if k' = k then (k, v) :: d else (k', v') :: dictSet d k v

/-- auth_codes.get(code) where code is the Option result of params.get
(src/oauth.py line 106); a missing key — or a None key, which matches no
string key — yields None. -/
def lookupCode (d : List (String × CodeRecord)) : Option String → Option CodeRecord
  | none => none
  | some c => d.lookup c

/-- auth_codes.pop(code, None) (src/oauth.py lines 108 and 127): remove the
binding when present, never fail. -/
def popCode (d : List (String × CodeRecord)) : Option String → List (String × CodeRecord)
  | none => d
  | some c => d.filter (fun q => q.1 != c)

/-- The cleanup sweep (src/oauth.py lines 27-32): drop every record whose
expires_at is strictly below the current time. -/
def sweep (now : Nat) (d : List (String × CodeRecord)) : List (String × CodeRecord) :=
  d.filter (fun q => !decide (q.2.expires_at < now))

/-! SHA-256 (FIPS 180-4), as computed by hashlib.sha256 at line 120.
32-bit words are Nats reduced mod 2^32. -/

/-- Truncation to a 32-bit word. -/
def w32 (n : Nat) : Nat := n % 4294967296

/-- Right rotation of a 32-bit word. -/
def rotr32 (n x : Nat) : Nat := w32 ((x >>> n) ||| (x <<< (32 - n)))

def bigSigma0 (x : Nat) : Nat := rotr32 2 x ^^^ rotr32 13 x ^^^ rotr32 22 x

def bigSigma1 (x : Nat) : Nat := rotr32 6 x ^^^ rotr32 11 x ^^^ rotr32 25 x

def smallSigma0 (x : Nat) : Nat := rotr32 7 x ^^^ rotr32 18 x ^^^ (x >>> 3)

def smallSigma1 (x : Nat) : Nat := rotr32 17 x ^^^ rotr32 19 x ^^^ (x >>> 10)

/-- Structural worker for chunksOf; the fuel starts at the list length, which
suffices for any positive chunk size. -/
def chunksOfAux (n : Nat) : Nat → List Nat → List (List Nat)
  | 0, _ => []
  | _, [] => []
  | fuel + 1, x :: xs => ((x :: xs).take n) :: chunksOfAux n fuel ((x :: xs).drop n)

/-- Split a byte list into consecutive chunks of n bytes (n > 0). -/
def chunksOf (n : Nat) (l : List Nat) : List (List Nat) :=
  chunksOfAux n l.length l

/-- Big-endian bytes of a number, k bytes wide. -/
def beBytes : Nat → Nat → List Nat
  | 0, _ => []
  | k + 1, n => beBytes k (n / 256) ++ [n % 256]

/-- Big-endian 32-bit word from a list of 4 bytes. -/
def beWord (l : List Nat) : Nat := l.foldl (fun a b => a * 256 + b) 0

/-- SHA-256 padding: 0x80, zeros to 56 mod 64, then the 64-bit bit length. -/
def sha256Pad (msg : List Nat) : List Nat :=
  msg ++ 128 :: (List.replicate ((119 - msg.length % 64) % 64) 0 ++ beBytes 8 (msg.length * 8))

/-- The 64 round constants of SHA-256 (first 32 bits of the fractional parts
of the cube roots of the first 64 primes), written in decimal. -/
def sha256K : List Nat :=
  [1116352408, 1899447441, 3049323471, 3921009573, 961987163, 1508970993,
   2453635748, 2870763221, 3624381080, 310598401, 607225278, 1426881987,
   1925078388, 2162078206, 2614888103, 3248222580, 3835390401, 4022224774,
   264347078, 604807628, 770255983, 1249150122, 1555081692, 1996064986,
   2554220882, 2821834349, 2952996808, 3210313671, 3336571891, 3584528711,
   113926993, 338241895, 666307205, 773529912, 1294757372, 1396182291,
   1695183700, 1986661051, 2177026350, 2456956037, 2730485921, 2820302411,
   3259730800, 3345764771, 3516065817, 3600352804, 4094571909, 275423344,
   430227734, 506948616, 659060556, 883997877, 958139571, 1322822218,
   1537002063, 1747873779, 1955562222, 2024104815, 2227730452, 2361852424,
   2428436474, 2756734187, 3204031479, 3329325298]

/-- The eight working variables of the compression function. -/
structure Hash8 where
  a : Nat
  b : Nat
  c : Nat
  d : Nat
  e : Nat
  f : Nat
  g : Nat
  h : Nat
  deriving Repr, DecidableEq

/-- The initial hash value of SHA-256 (first 32 bits of the fractional parts
of the square roots of the first 8 primes), written in decimal. -/
def sha256H0 : Hash8 :=
  ⟨1779033703, 3144134277, 1013904242, 2773480762,
   1359893119, 2600822924, 528734635, 1541459225⟩

/-- Extend 16 message-schedule words to 64. -/
def extendSchedule (w : Array Nat) : Array Nat :=
  (List.range 48).foldl (fun w i =>
    w.push (w32 (w.getD i 0 + smallSigma0 (w.getD (i + 1) 0) + w.getD (i + 9) 0 +
      smallSigma1 (w.getD (i + 14) 0)))) w

/-- Compress one 64-byte chunk into the running hash. -/
def compressChunk (h0 : Hash8) (chunk : List Nat) : Hash8 :=
  let w := extendSchedule (Array.mk ((chunksOf 4 chunk).map beWord))
  let s := (sha256K.zip w.toList).foldl (fun s kw =>
    let s1 := bigSigma1 s.e
    let ch := (s.e &&& s.f) ^^^ ((s.e ^^^ 4294967295) &&& s.g)
    let t1 := w32 (s.h + s1 + ch + kw.1 + kw.2)
    let s0 := bigSigma0 s.a
    let mj := (s.a &&& s.b) ^^^ (s.a &&& s.c) ^^^ (s.b &&& s.c)
    let t2 := w32 (s0 + mj)
    ⟨w32 (t1 + t2), s.a, s.b, s.c, w32 (s.d + t1), s.e, s.f, s.g⟩) h0
  ⟨w32 (h0.a + s.a), w32 (h0.b + s.b), w32 (h0.c + s.c), w32 (h0.d + s.d),
   w32 (h0.e + s.e), w32 (h0.f + s.f), w32 (h0.g + s.g), w32 (h0.h + s.h)⟩

/-- SHA-256 digest (32 bytes) of a byte list. -/
def sha256Bytes (msg : List Nat) : List Nat :=
  let hh := (chunksOf 64 (sha256Pad msg)).foldl compressChunk sha256H0
  beBytes 4 hh.a ++ beBytes 4 hh.b ++ beBytes 4 hh.c ++ beBytes 4 hh.d ++
  beBytes 4 hh.e ++ beBytes 4 hh.f ++ beBytes 4 hh.g ++ beBytes 4 hh.h

/-- UTF-8 encoding of one character, as .encode() produces at line 120. -/
def utf8EncodeCharNat (c : Char) : List Nat :=
  let n := c.toNat
  if n < 128 then [n]
  else if n < 2048 then [192 + n / 64, 128 + n % 64]
  else if n < 65536 then [224 + n / 4096, 128 + (n / 64) % 64, 128 + n % 64]
  else [240 + n / 262144, 128 + (n / 4096) % 64, 128 + (n / 64) % 64, 128 + n % 64]

/-- UTF-8 bytes of a string. -/
def strBytes (s : String) : List Nat :=
  s.data.foldr (fun c acc => utf8EncodeCharNat c ++ acc) []

def b64urlChar (n : Nat) : Char :=
  "ABCDEFGHIJKLMNOPQRSTUVWXYZabcdefghijklmnopqrstuvwxyz0123456789-_".data.getD n 'A'

/-- base64 (URL-safe alphabet) of a byte list, with '=' padding. -/
def b64urlEncode : List Nat → List Char
  | b0 :: b1 :: b2 :: rest =>
    b64urlChar (b0 >>> 2) :: b64urlChar (((b0 &&& 3) <<< 4) ||| (b1 >>> 4)) ::
    b64urlChar (((b1 &&& 15) <<< 2) ||| (b2 >>> 6)) :: b64urlChar (b2 &&& 63) ::
    b64urlEncode rest
  | [b0, b1] =>
    [b64urlChar (b0 >>> 2), b64urlChar (((b0 &&& 3) <<< 4) ||| (b1 >>> 4)),
     b64urlChar ((b1 &&& 15) <<< 2), '=']
  | [b0] =>
    [b64urlChar (b0 >>> 2), b64urlChar ((b0 &&& 3) <<< 4), '=', '=']
  | [] => []

/-- bytes.rstrip(b"=") on the encoded text. -/
def rstripEq (l : List Char) : List Char :=
  (l.reverse.dropWhile (fun c => c == '=')).reverse

/-- base64.urlsafe_b64encode(hashlib.sha256(s.encode()).digest()).rstrip(b"=").decode(),
exactly the computation of src/oauth.py lines 120-121. -/
def sha256_b64url (s : String) : String :=
  String.mk (rstripEq (b64urlEncode (sha256Bytes (strBytes s))))

/-! Query-string codecs of urllib.parse, in decoded form (see the header). -/

/-- str.split(sep) on a single character: always at least one piece. -/
def splitChar (c : Char) : List Char → List (List Char)
  | [] => [[]]
  | x :: xs =>
    match splitChar c xs with
    | [] => [[]]
    | piece :: rest => if x = c then [] :: piece :: rest else (x :: piece) :: rest

/-- str.split(sep, 1) on a single character: the text before and after the
first occurrence, or none when the character is absent. -/
def splitFirst (c : Char) : List Char → Option (List Char × List Char)
  | [] => none
  | x :: xs =>
    if x = c then some ([], xs)
    else
      match splitFirst c xs with
      | none => none
      | some (a, b) => some (x :: a, b)

/-- Total form of splitFirst: when the character is absent everything is the
first component. -/
def splitFirstD (c : Char) (l : List Char) : List Char × List Char :=
  match splitFirst c l with
  | none => (l, [])
  | some (a, b) => (a, b)

/-- One chunk of parse_qsl: split at the first '=', drop the chunk when '='
is absent or the value is empty (keep_blank_values defaults to False). -/
def parseChunk (chunk : List Char) : Option (String × String) :=
  match splitFirst '=' chunk with
  | none => none
  | some (n, v) => if v = [] then none else some (String.mk n, String.mk v)

/-- urllib.parse.parse_qsl with default arguments: split on '&', drop empty
chunks and chunks without '=', split each at the first '=', drop pairs whose
value is empty. -/
def parse_qsl (q : String) : List (String × String) :=
  (splitChar '&' q.data).filterMap parseChunk

/-- Append a value under a key in a parse_qs dict, keeping insertion order. -/
def dictAppendVal : List (String × List String) → String → String → List (String × List String)
  | [], k, v => [(k, [v])]
  | (k', vs) :: d, k, v =>
    if k' = k then (k', vs ++ [v]) :: d else (k', vs) :: dictAppendVal d k v

/-- urllib.parse.parse_qs with default arguments: group parse_qsl pairs into
an insertion-ordered dict of value lists. -/
def parse_qs (q : String) : List (String × List String) :=
  (parse_qsl q).foldl (fun d kv => dictAppendVal d kv.1 kv.2) []

/-- Join chunks with '&'. -/
def joinAmp : List (List Char) → List Char
  | [] => []
  | [p] => p
  | p :: q :: r => p ++ '&' :: joinAmp (q :: r)

/-- urlencode({k: v[0] for k, v in qs.items()}) of src/oauth.py line 84:
each key paired with the first of its values, joined k=v with '&'. -/
def urlencodeFirstVals (d : List (String × List String)) : String :=
  String.mk (joinAmp (d.map fun kv => kv.1.data ++ '=' :: (kv.2.headD "").data))

/-- Characters urllib allows in a URL scheme: ASCII letters, digits and
'+', '-', '.' (scheme_chars of urllib.parse). -/
def schemeChar (c : Char) : Bool := c.isAlphanum || c == '+' || c == '-' || c == '.'

/-- The scheme-detection step of urlsplit (CPython 3.11): when the text
before the first ':' is non-empty, begins with an ASCII letter and consists
only of scheme characters, it is split off and LOWERCASED (the scheme text
is ASCII here, so Char.toLower agrees with str.lower); otherwise the URL is
left whole with an empty scheme. -/
def splitScheme (l : List Char) : String × List Char :=
  match splitFirst ':' l with
  | none => ("", l)
  | some (before, after) =>
    if before ≠ [] ∧ (before.headD ' ').isAlpha ∧ before.all schemeChar then
      (String.mk (before.map Char.toLower), after)
    else ("", l)

/-- The components urlsplit produces.  urlparse additionally splits params
(';' in the last path segment) off the path, and urlunparse rejoins them
verbatim, so they stay inside path here. -/
structure UrlParts where
  scheme : String
  netloc : String
  path : String
  query : String
  fragment : String
  deriving Repr, DecidableEq

/-- Outcome of urlsplit: parsed components; a raised
ValueError "Invalid IPv6 URL" (netloc with mismatched brackets); or a URL
outside the modelled fragment — a matched-bracket host, which CPython 3.11
validates against ipaddress (raising unless it is a genuine IPv6/IPvFuture
literal), or a non-ASCII netloc, which the NFKC check of _checknetloc may
reject.  No theorem below asserts anything about the unmodelled outcome. -/
inductive UrlSplitOutcome where
  | ok (parts : UrlParts)
  | invalid (msg : String)
  | unmodelled (reason : String)
  deriving Repr, DecidableEq

/-- urlsplit of CPython 3.11, as urlparse invokes it at src/oauth.py line 79:
remove tab/CR/LF characters, split off a lowercased scheme, and when the
remainder starts with "//" take the netloc up to the first '/', '?' or '#'
(raising on mismatched brackets; matched-bracket hosts and non-ASCII netlocs
are outside the modelled fragment); then split the fragment at the first '#'
and the query at the first '?' of what precedes it. -/
def urlsplitE (u : String) : UrlSplitOutcome :=
  let l := u.data.filter (fun c => !(c == '\t' || c == '\r' || c == '\n'))
  let sr := splitScheme l
  if (sr.2.take 2) = ['/', '/'] then
    let sp := (sr.2.drop 2).span (fun c => !(c == '/' || c == '?' || c == '#'))
    if (sp.1.contains '[') != (sp.1.contains ']') then .invalid "Invalid IPv6 URL"
    else if sp.1.contains '[' then .unmodelled "bracketed-host validation"
    else if !(sp.1.all (fun c => decide (c.toNat < 128))) then
      .unmodelled "non-ASCII netloc NFKC check"
    else
      let pf := splitFirstD '#' sp.2
      let pq := splitFirstD '?' pf.1
      .ok ⟨sr.1, String.mk sp.1, String.mk pq.1, String.mk pq.2, String.mk pf.2⟩
  else
    let pf := splitFirstD '#' sr.2
    let pq := splitFirstD '?' pf.1
    .ok ⟨sr.1, "", String.mk pq.1, String.mk pq.2, String.mk pf.2⟩

/-- The schemes for which urlunsplit re-inserts "//" even when the netloc is
empty (uses_netloc of urllib.parse; its empty-string entry sits behind the
scheme-non-empty guard and is unreachable). -/
def uses_netloc : List String :=
  ["", "ftp", "http", "gopher", "nntp", "telnet", "imap", "wais", "file", "mms",
   "https", "shttp", "snews", "prospero", "rtsp", "rtsps", "rtspu", "rsync",
   "svn", "svn+ssh", "sftp", "nfs", "git", "git+ssh", "ws", "wss"]

/-- urlunsplit (reached through urlunparse at src/oauth.py line 85) with the
query component replaced, following CPython's reassembly exactly: "//" plus
the netloc when the netloc is non-empty or the scheme uses a netloc and the
path does not already start with "//", a '/' inserted before a relative path
there, then "scheme:", "?query" when non-empty and "#fragment" when
non-empty. -/
def urlunsplitQ (parts : UrlParts) (query : String) : String :=
  let url0 := parts.path
  let url1 :=
    if parts.netloc ≠ "" ∨
        (parts.scheme ≠ "" ∧ parts.scheme ∈ uses_netloc ∧ url0.data.take 2 ≠ ['/', '/']) then
      "//" ++ parts.netloc ++
        (if url0 ≠ "" ∧ url0.data.headD '/' ≠ '/' then "/" ++ url0 else url0)
    else url0
  let url2 := if parts.scheme ≠ "" then parts.scheme ++ ":" ++ url1 else url1
  let url3 := if query ≠ "" then url2 ++ "?" ++ query else url2
  if parts.fragment ≠ "" then url3 ++ "#" ++ parts.fragment else url3

/-! The three request-facing functions. -/

/-- Responses of the authorize handler.  fault marks an unhandled Python
exception: for an absent redirect_uri, urlparse(None) is coerced to a bytes
result and urlunparse fails mixing it with the str query; for a
mismatched-bracket netloc, urlsplit raises ValueError.  unmodelled marks the
redirect_uris outside the modelled URL fragment (see UrlSplitOutcome). -/
inductive AuthorizeResp where
  | err (status : Nat) (error : String)
  | redirect (status : Nat) (location : String)
  | fault (msg : String)
  | unmodelled (reason : String)
  deriving Repr, DecidableEq

/-- Query parameters read by authorize (src/oauth.py lines 56-62). -/
structure AuthorizeParams where
  response_type : Option String
  client_id : Option String
  redirect_uri : Option String
  state : Option String
  code_challenge : Option String
  code_challenge_method : Option String
  deriving Repr, DecidableEq

/-- The query rebuild of src/oauth.py lines 80-84: parse the query, set the
code, add a truthy state, re-encode first values. -/
def buildQuery (q0 code : String) (state : Option String) : String :=
  let qs := parse_qs q0
  let qs := dictSet qs "code" [code]
  let qs := if (state.getD "") ≠ "" then dictSet qs "state" [state.getD ""] else qs
  urlencodeFirstVals qs

/-- The authorize handler (src/oauth.py lines 55-87).  now is time.time(),
code the value of secrets.token_hex(32).  The store is updated before the
URL is touched, exactly as lines 70-79 order it. -/
def authorize (cfg : Config) (st : OAuthState) (p : AuthorizeParams) (now : Nat)
    (code : String) : AuthorizeResp × OAuthState :=
  if p.response_type ≠ some "code" then (.err 400 "unsupported_response_type", st)
  else if p.client_id ≠ some cfg.client_id then (.err 403 "invalid_client", st)
  else
    let record : CodeRecord :=
      { client_id := p.client_id
        redirect_uri := p.redirect_uri
        code_challenge := p.code_challenge
        code_challenge_method := p.code_challenge_method.getD "plain"
        expires_at := now + 300 }
    let st' := { st with auth_codes := dictSet st.auth_codes code record }
    match p.redirect_uri with
    | none => (.fault "urlunparse raises on absent redirect_uri", st')
    | some uri =>
      match urlsplitE uri with
      | .invalid msg => (.fault msg, st')
      | .unmodelled r => (.unmodelled r, st')
      | .ok parts =>
        (.redirect 302 (urlunsplitQ parts (buildQuery parts.query code p.state)), st')

/-- Responses of the token handler. -/
inductive TokenResp where
  | err (status : Nat) (error : String) (error_description : Option String)
  | ok (access_token : String) (token_type : String)
  deriving Repr, DecidableEq

/-- Form-body fields read by token (src/oauth.py lines 96-101). -/
structure TokenParams where
  grant_type : Option String
  code : Option String
  client_id : Option String
  client_secret : Option String
  redirect_uri : Option String
  code_verifier : Option String
  deriving Repr, DecidableEq

/-- The success tail of the token handler (src/oauth.py lines 127-135):
drop the code, mint the access token, return it with token_type Bearer. -/
def tokenSuccess (st : OAuthState) (p : TokenParams) (fresh : String) :
    TokenResp × OAuthState :=
  (.ok fresh "Bearer",
   { auth_codes := popCode st.auth_codes p.code,
     access_tokens := st.access_tokens.insert fresh })

/-- The token handler (src/oauth.py lines 89-135).  now is time.time(),
fresh the value of secrets.token_hex(32). -/
def token (cfg : Config) (st : OAuthState) (p : TokenParams) (now : Nat)
    (fresh : String) : TokenResp × OAuthState :=
  if p.grant_type ≠ some "authorization_code" then
    (.err 400 "unsupported_grant_type" none, st)
  else
    match lookupCode st.auth_codes p.code with
    | none =>
      (.err 400 "invalid_grant" none, { st with auth_codes := popCode st.auth_codes p.code })
    | some stored =>
      if stored.expires_at < now then
        (.err 400 "invalid_grant" none, { st with auth_codes := popCode st.auth_codes p.code })
      else if p.client_id ≠ some cfg.client_id ∨ p.client_secret ≠ some cfg.client_secret then
        (.err 401 "invalid_client" none, st)
      else if stored.redirect_uri ≠ p.redirect_uri then
        (.err 400 "invalid_grant" (some "redirect_uri mismatch"), st)
      else if stored.code_challenge.getD "" ≠ "" then
        if stored.code_challenge_method = "S256" then
          if some (sha256_b64url (p.code_verifier.getD "")) ≠ stored.code_challenge then
            (.err 400 "invalid_grant" (some "PKCE verification failed"), st)
          else tokenSuccess st p fresh
        else if p.code_verifier ≠ stored.code_challenge then
          (.err 400 "invalid_grant" (some "PKCE verification failed"), st)
        else tokenSuccess st p fresh
      else tokenSuccess st p fresh

/-- str.startswith for the Bearer prefix (src/oauth.py line 151). -/
def strStartsWith (s p : String) : Bool := p.data.isPrefixOf s.data

/-- Dropping n leading characters; auth.replace("Bearer ", "", 1) under the
startswith guard removes exactly the 7-character prefix. -/
def strDrop (s : String) (n : Nat) : String := String.mk (s.data.drop n)

/-- The bearer validator (src/oauth.py lines 145-154).  auth is the raw
Authorization header value; none models an absent header, which the ASGI
dict lookup turns into the empty string. -/
def validate_token (cfg : Config) (access_tokens : List String) (auth : Option String) : Bool :=
  let a := auth.getD ""
  if a = "" then false
  else
    let token_val := if strStartsWith a "Bearer " then strDrop a 7 else ""
    if cfg.static_token.getD "" ≠ "" ∧ token_val = cfg.static_token.getD "" then true
    else access_tokens.contains token_val

theorem lookup_cons {α : Type} (k k' : String) (v : α) (t : List (String × α)) :
    List.lookup k' ((k, v) :: t) = if k' = k then some v else List.lookup k' t := by
  by_cases h : k' = k
  · simp [List.lookup, h]
  · rw [if_neg h]
    have hb : (k' == k) = false := by simpa using h
    simp [List.lookup, hb]

theorem lookup_dictSet_self {α : Type} (d : List (String × α)) (k : String) (v : α) :
    List.lookup k (dictSet d k v) = some v := by
  induction d with
  | nil => simp [dictSet, lookup_cons]
  | cons kv t ih =>
    rcases kv with ⟨k', v'⟩
    by_cases h : k' = k
    · simp [dictSet, h, lookup_cons]
    · simpa [dictSet, h, lookup_cons, Ne.symm h] using ih

theorem lookup_popCode_self (d : List (String × CodeRecord)) (c : String) :
    List.lookup c (popCode d (some c)) = none := by
  induction d with
  | nil => rfl
  | cons kv t ih =>
    rcases kv with ⟨k, v⟩
    by_cases h : k = c
    · simpa [popCode, List.filter_cons, h] using ih
    · have : ((k, v).1 != c) = true := by simpa using h
      simpa [popCode, List.filter_cons, this, lookup_cons, Ne.symm h] using ih

theorem lookup_eq_none_of_not_mem_keys {α : Type} {d : List (String × α)} {c : String}
    (h : c ∉ d.map Prod.fst) : List.lookup c d = none := by
  induction d with
  | nil => rfl
  | cons kv t ih =>
    rcases kv with ⟨k, v⟩
    simp only [List.map_cons, List.mem_cons, not_or] at h
    rw [lookup_cons, if_neg h.1]
    exact ih h.2

theorem lookup_filter_nodup {d : List (String × CodeRecord)} {c : String} {r : CodeRecord}
    (hnd : (d.map Prod.fst).Nodup) (hl : List.lookup c d = some r)
    (f : String × CodeRecord → Bool) :
    List.lookup c (d.filter f) = if f (c, r) then some r else none := by
  induction d with
  | nil => simp [List.lookup] at hl
  | cons kv t ih =>
    rcases kv with ⟨k, v⟩
    simp only [List.map_cons, List.nodup_cons] at hnd
    rw [lookup_cons] at hl
    by_cases hk : c = k
    · rw [if_pos hk] at hl
      cases hl
      subst hk
      have hnone : List.lookup c (t.filter f) = none :=
        lookup_eq_none_of_not_mem_keys fun hm =>
          hnd.1 (by
            rcases List.mem_map.mp hm with ⟨kv, hkv, hfst⟩
            exact List.mem_map.mpr ⟨kv, List.mem_of_mem_filter hkv, hfst⟩)
      by_cases hf : f (c, r)
      · simp [List.filter_cons, hf, lookup_cons, hnone]
      · simp [List.filter_cons, hf, hnone]
    · rw [if_neg hk] at hl
      by_cases hf : f (k, v)
      · simpa [List.filter_cons, hf, lookup_cons, hk] using ih hnd.2 hl
      · simpa [List.filter_cons, hf] using ih hnd.2 hl

/-! Computation lemmas for each branch of the token handler. -/

theorem token_eq_of_bad_grant {cfg : Config} {st : OAuthState} {p : TokenParams}
    {now : Nat} {fresh : String} (hg : p.grant_type ≠ some "authorization_code") :
    token cfg st p now fresh = (.err 400 "unsupported_grant_type" none, st) := by
  unfold token
  rw [if_pos hg]

theorem token_eq_of_no_code {cfg : Config} {st : OAuthState} {p : TokenParams}
    {now : Nat} {fresh : String} (hg : p.grant_type = some "authorization_code")
    (hl : lookupCode st.auth_codes p.code = none) :
    token cfg st p now fresh =
      (.err 400 "invalid_grant" none, { st with auth_codes := popCode st.auth_codes p.code }) := by
  unfold token
  rw [if_neg (fun hn => hn hg)]
  simp only [hl]

theorem token_eq_of_expired {cfg : Config} {st : OAuthState} {p : TokenParams}
    {now : Nat} {fresh : String} {r : CodeRecord}
    (hg : p.grant_type = some "authorization_code")
    (hl : lookupCode st.auth_codes p.code = some r) (he : r.expires_at < now) :
    token cfg st p now fresh =
      (.err 400 "invalid_grant" none, { st with auth_codes := popCode st.auth_codes p.code }) := by
  unfold token
  rw [if_neg (fun hn => hn hg)]
  simp only [hl]
  rw [if_pos he]

theorem token_eq_of_bad_client {cfg : Config} {st : OAuthState} {p : TokenParams}
    {now : Nat} {fresh : String} {r : CodeRecord}
    (hg : p.grant_type = some "authorization_code")
    (hl : lookupCode st.auth_codes p.code = some r) (he : ¬ r.expires_at < now)
    (hc : p.client_id ≠ some cfg.client_id ∨ p.client_secret ≠ some cfg.client_secret) :
    token cfg st p now fresh = (.err 401 "invalid_client" none, st) := by
  unfold token
  rw [if_neg (fun hn => hn hg)]
  simp only [hl]
  rw [if_neg he, if_pos hc]

theorem token_eq_of_redirect_mismatch {cfg : Config} {st : OAuthState} {p : TokenParams}
    {now : Nat} {fresh : String} {r : CodeRecord}
    (hg : p.grant_type = some "authorization_code")
    (hl : lookupCode st.auth_codes p.code = some r) (he : ¬ r.expires_at < now)
    (hci : p.client_id = some cfg.client_id) (hcs : p.client_secret = some cfg.client_secret)
    (hr : r.redirect_uri ≠ p.redirect_uri) :
    token cfg st p now fresh = (.err 400 "invalid_grant" (some "redirect_uri mismatch"), st) := by
  have hc : ¬(p.client_id ≠ some cfg.client_id ∨ p.client_secret ≠ some cfg.client_secret) := by
    push_neg
    exact ⟨hci, hcs⟩
  unfold token
  rw [if_neg (fun hn => hn hg)]
  simp only [hl]
  rw [if_neg he, if_neg hc, if_pos hr]

theorem token_eq_of_pkce_fail_s256 {cfg : Config} {st : OAuthState} {p : TokenParams}
    {now : Nat} {fresh : String} {r : CodeRecord}
    (hg : p.grant_type = some "authorization_code")
    (hl : lookupCode st.auth_codes p.code = some r) (he : ¬ r.expires_at < now)
    (hci : p.client_id = some cfg.client_id) (hcs : p.client_secret = some cfg.client_secret)
    (hr : r.redirect_uri = p.redirect_uri) (hch : r.code_challenge.getD "" ≠ "")
    (hm : r.code_challenge_method = "S256")
    (hs : some (sha256_b64url (p.code_verifier.getD "")) ≠ r.code_challenge) :
    token cfg st p now fresh = (.err 400 "invalid_grant" (some "PKCE verification failed"), st) := by
  have hc : ¬(p.client_id ≠ some cfg.client_id ∨ p.client_secret ≠ some cfg.client_secret) := by
    push_neg
    exact ⟨hci, hcs⟩
  unfold token
  rw [if_neg (fun hn => hn hg)]
  simp only [hl]
  rw [if_neg he, if_neg hc, if_neg (fun hn => hn hr), if_pos hch, if_pos hm, if_pos hs]

theorem token_eq_of_pkce_fail_plain {cfg : Config} {st : OAuthState} {p : TokenParams}
    {now : Nat} {fresh : String} {r : CodeRecord}
    (hg : p.grant_type = some "authorization_code")
    (hl : lookupCode st.auth_codes p.code = some r) (he : ¬ r.expires_at < now)
    (hci : p.client_id = some cfg.client_id) (hcs : p.client_secret = some cfg.client_secret)
    (hr : r.redirect_uri = p.redirect_uri) (hch : r.code_challenge.getD "" ≠ "")
    (hm : r.code_challenge_method ≠ "S256") (hv : p.code_verifier ≠ r.code_challenge) :
    token cfg st p now fresh = (.err 400 "invalid_grant" (some "PKCE verification failed"), st) := by
  have hc : ¬(p.client_id ≠ some cfg.client_id ∨ p.client_secret ≠ some cfg.client_secret) := by
    push_neg
    exact ⟨hci, hcs⟩
  unfold token
  rw [if_neg (fun hn => hn hg)]
  simp only [hl]
  rw [if_neg he, if_neg hc, if_neg (fun hn => hn hr), if_pos hch, if_neg hm, if_pos hv]

theorem token_eq_of_pkce_ok {cfg : Config} {st : OAuthState} {p : TokenParams}
    {now : Nat} {fresh : String} {r : CodeRecord}
    (hg : p.grant_type = some "authorization_code")
    (hl : lookupCode st.auth_codes p.code = some r) (he : ¬ r.expires_at < now)
    (hci : p.client_id = some cfg.client_id) (hcs : p.client_secret = some cfg.client_secret)
    (hr : r.redirect_uri = p.redirect_uri)
    (hpk : r.code_challenge.getD "" = "" ∨
      (r.code_challenge.getD "" ≠ "" ∧ r.code_challenge_method = "S256" ∧
        some (sha256_b64url (p.code_verifier.getD "")) = r.code_challenge) ∨
      (r.code_challenge.getD "" ≠ "" ∧ r.code_challenge_method ≠ "S256" ∧
        p.code_verifier = r.code_challenge)) :
    token cfg st p now fresh = tokenSuccess st p fresh := by
  have hc : ¬(p.client_id ≠ some cfg.client_id ∨ p.client_secret ≠ some cfg.client_secret) := by
    push_neg
    exact ⟨hci, hcs⟩
  unfold token
  rw [if_neg (fun hn => hn hg)]
  simp only [hl]
  rw [if_neg he, if_neg hc, if_neg (fun hn => hn hr)]
  rcases hpk with hch | ⟨hch, hm, hs⟩ | ⟨hch, hm, hv⟩
  · rw [if_neg (fun hn => hn hch)]
  · rw [if_pos hch, if_pos hm, if_neg (fun hn => hn hs)]
  · rw [if_pos hch, if_neg hm, if_neg (fun hn => hn hv)]

/-- Exhaustive shape of a token-handler run: one of the five error responses
(with the store state each one leaves behind) or the success tail, the latter
only when the grant type was right and the code was found. -/
theorem token_pair_cases (cfg : Config) (st : OAuthState) (p : TokenParams)
    (now : Nat) (fresh : String) :
    token cfg st p now fresh = (.err 400 "unsupported_grant_type" none, st) ∨
    token cfg st p now fresh =
      (.err 400 "invalid_grant" none, { st with auth_codes := popCode st.auth_codes p.code }) ∨
    token cfg st p now fresh = (.err 401 "invalid_client" none, st) ∨
    token cfg st p now fresh = (.err 400 "invalid_grant" (some "redirect_uri mismatch"), st) ∨
    token cfg st p now fresh = (.err 400 "invalid_grant" (some "PKCE verification failed"), st) ∨
    (p.grant_type = some "authorization_code" ∧
      (∃ c r, p.code = some c ∧ List.lookup c st.auth_codes = some r) ∧
      token cfg st p now fresh = tokenSuccess st p fresh) := by
  by_cases hg : p.grant_type = some "authorization_code"
  · cases hl : lookupCode st.auth_codes p.code with
    | none => exact Or.inr (Or.inl (token_eq_of_no_code hg hl))
    | some r =>
      have hcode : ∃ c r', p.code = some c ∧ List.lookup c st.auth_codes = some r' := by
        cases hpc : p.code with
        | none => rw [hpc] at hl; exact absurd hl (by simp [lookupCode])
        | some c => rw [hpc] at hl; exact ⟨c, r, rfl, hl⟩
      by_cases he : r.expires_at < now
      · exact Or.inr (Or.inl (token_eq_of_expired hg hl he))
      · by_cases hc : p.client_id ≠ some cfg.client_id ∨ p.client_secret ≠ some cfg.client_secret
        · exact Or.inr (Or.inr (Or.inl (token_eq_of_bad_client hg hl he hc)))
        · push_neg at hc
          by_cases hr : r.redirect_uri = p.redirect_uri
          · by_cases hch : r.code_challenge.getD "" = ""
            · exact Or.inr (Or.inr (Or.inr (Or.inr (Or.inr
                ⟨hg, hcode, token_eq_of_pkce_ok hg hl he hc.1 hc.2 hr (Or.inl hch)⟩))))
            · by_cases hm : r.code_challenge_method = "S256"
              · by_cases hs : some (sha256_b64url (p.code_verifier.getD "")) = r.code_challenge
                · exact Or.inr (Or.inr (Or.inr (Or.inr (Or.inr
                    ⟨hg, hcode, token_eq_of_pkce_ok hg hl he hc.1 hc.2 hr
                      (Or.inr (Or.inl ⟨hch, hm, hs⟩))⟩))))
                · exact Or.inr (Or.inr (Or.inr (Or.inr (Or.inl
                    (token_eq_of_pkce_fail_s256 hg hl he hc.1 hc.2 hr hch hm hs)))))
              · by_cases hv : p.code_verifier = r.code_challenge
                · exact Or.inr (Or.inr (Or.inr (Or.inr (Or.inr
                    ⟨hg, hcode, token_eq_of_pkce_ok hg hl he hc.1 hc.2 hr
                      (Or.inr (Or.inr ⟨hch, hm, hv⟩))⟩))))
                · exact Or.inr (Or.inr (Or.inr (Or.inr (Or.inl
                    (token_eq_of_pkce_fail_plain hg hl he hc.1 hc.2 hr hch hm hv)))))
          · exact Or.inr (Or.inr (Or.inr (Or.inl
              (token_eq_of_redirect_mismatch hg hl he hc.1 hc.2 hr))))
  · exact Or.inl (token_eq_of_bad_grant hg)

/-- Inversion of a successful token run. -/
theorem token_ok_inv {cfg : Config} {st : OAuthState} {p : TokenParams} {now : Nat}
    {fresh tok tt : String} {st' : OAuthState}
    (h : token cfg st p now fresh = (.ok tok tt, st')) :
    p.grant_type = some "authorization_code" ∧
    (∃ c r, p.code = some c ∧ List.lookup c st.auth_codes = some r) ∧
    tok = fresh ∧ tt = "Bearer" ∧
    st' = { auth_codes := popCode st.auth_codes p.code,
            access_tokens := st.access_tokens.insert fresh } := by
  rcases token_pair_cases cfg st p now fresh with hq | hq | hq | hq | hq | ⟨hg, hcode, hq⟩ <;>
    rw [hq] at h
  · simp at h
  · simp at h
  · simp at h
  · simp at h
  · simp at h
  · simp only [tokenSuccess, Prod.mk.injEq, TokenResp.ok.injEq] at h
    exact ⟨hg, hcode, h.1.1.symm, h.1.2.symm, h.2.symm⟩

/-- Inversion of a failed token run: the Token Store is untouched. -/
theorem token_err_tokens {cfg : Config} {st : OAuthState} {p : TokenParams} {now : Nat}
    {fresh e : String} {s : Nat} {dsc : Option String} {st' : OAuthState}
    (h : token cfg st p now fresh = (.err s e dsc, st')) :
    st'.access_tokens = st.access_tokens := by
  rcases token_pair_cases cfg st p now fresh with hq | hq | hq | hq | hq | ⟨_, _, hq⟩ <;>
    rw [hq] at h
  · injection h with h1 h2
    rw [← h2]
  · injection h with h1 h2
    rw [← h2]
  · injection h with h1 h2
    rw [← h2]
  · injection h with h1 h2
    rw [← h2]
  · injection h with h1 h2
    rw [← h2]
  · simp [tokenSuccess] at h

/-- C1: a code redeems at most once.  Whenever a token-endpoint call succeeds,
the code is absent from the Code Store in the state the response leaves
behind, and repeating the identical request (any later clock, any fresh
token) answers invalid_grant — exactly one success and one invalid_grant. -/
theorem code_redeemed_at_most_once_C1 (cfg : Config) (st : OAuthState) (p : TokenParams)
    (now now2 : Nat) (f1 f2 tok tt : String) (st1 : OAuthState)
    (h : token cfg st p now f1 = (.ok tok tt, st1)) :
    lookupCode st1.auth_codes p.code = none ∧
    (token cfg st1 p now2 f2).1 = .err 400 "invalid_grant" none := by
  obtain ⟨hg, ⟨c, r, hpc, hl⟩, _, _, hst⟩ := token_ok_inv h
  have hnone : lookupCode st1.auth_codes p.code = none := by
    rw [hst, hpc]
    exact lookup_popCode_self st.auth_codes c
  refine ⟨hnone, ?_⟩
  rw [token_eq_of_no_code hg hnone]

/-- Witness for C1 at a concrete successful exchange. -/
theorem code_redeemed_at_most_once_C1_witness :
    token ⟨"cid", "sec", "https://x.example", some "stok"⟩
        ⟨[("c1", ⟨some "cid", some "https://a/cb", none, "plain", 300⟩)], []⟩
        ⟨some "authorization_code", some "c1", some "cid", some "sec", some "https://a/cb", none⟩
        0 "t1" = (.ok "t1" "Bearer", ⟨[], ["t1"]⟩) ∧
    (lookupCode (⟨[], ["t1"]⟩ : OAuthState).auth_codes
        (⟨some "authorization_code", some "c1", some "cid", some "sec", some "https://a/cb",
          none⟩ : TokenParams).code = none ∧
      (token ⟨"cid", "sec", "https://x.example", some "stok"⟩ ⟨[], ["t1"]⟩
        ⟨some "authorization_code", some "c1", some "cid", some "sec", some "https://a/cb", none⟩
        5 "t2").1 = .err 400 "invalid_grant" none) :=
  ⟨by decide,
   code_redeemed_at_most_once_C1 ⟨"cid", "sec", "https://x.example", some "stok"⟩
     ⟨[("c1", ⟨some "cid", some "https://a/cb", none, "plain", 300⟩)], []⟩
     ⟨some "authorization_code", some "c1", some "cid", some "sec", some "https://a/cb", none⟩
     0 5 "t1" "t2" "t1" "Bearer" ⟨[], ["t1"]⟩ (by decide)⟩

/-- C10: a token request that fails any validation step leaves the Token
Store unchanged; only the fully successful path mints a token, returning the
fresh value with token_type Bearer and inserting exactly it. -/
theorem token_store_unchanged_on_failure_C10 (cfg : Config) (st : OAuthState)
    (p : TokenParams) (now : Nat) (fresh : String) :
    (∀ s e dsc st', token cfg st p now fresh = (.err s e dsc, st') →
      st'.access_tokens = st.access_tokens) ∧
    (∀ tok tt st', token cfg st p now fresh = (.ok tok tt, st') →
      tok = fresh ∧ tt = "Bearer" ∧ st'.access_tokens = st.access_tokens.insert fresh) := by
  refine ⟨fun s e dsc st' h => token_err_tokens h, fun tok tt st' h => ?_⟩
  obtain ⟨_, _, htok, htt, hst⟩ := token_ok_inv h
  exact ⟨htok, htt, by rw [hst]⟩

/-- Witness for C10 at a concrete failing request. -/
theorem token_store_unchanged_on_failure_C10_witness :
    token ⟨"cid", "sec", "https://x.example", some "stok"⟩ ⟨[], []⟩
        ⟨some "password", none, none, none, none, none⟩ 0 "t9" =
      (.err 400 "unsupported_grant_type" none, ⟨[], []⟩) ∧
    (⟨[], []⟩ : OAuthState).access_tokens = (⟨[], []⟩ : OAuthState).access_tokens :=
  ⟨by decide,
   (token_store_unchanged_on_failure_C10 ⟨"cid", "sec", "https://x.example", some "stok"⟩
       ⟨[], []⟩ ⟨some "password", none, none, none, none, none⟩ 0 "t9").1
     400 "unsupported_grant_type" none ⟨[], []⟩ (by decide)⟩

/-- C4 counterexample: a token request whose code is found but whose
client_secret is wrong answers invalid_client while the record stays in the
Code Store, refuting removal on every failed redemption attempt. -/
theorem code_removed_on_failure_C4_counterexample :
    (token ⟨"cid", "sec", "https://x.example", some "stok"⟩
        ⟨[("c4", ⟨some "cid", some "https://a/cb", none, "plain", 300⟩)], []⟩
        ⟨some "authorization_code", some "c4", some "cid", some "bad", some "https://a/cb", none⟩
        0 "t4").1 = .err 401 "invalid_client" none ∧
    List.lookup "c4"
        (token ⟨"cid", "sec", "https://x.example", some "stok"⟩
          ⟨[("c4", ⟨some "cid", some "https://a/cb", none, "plain", 300⟩)], []⟩
          ⟨some "authorization_code", some "c4", some "cid", some "bad", some "https://a/cb",
            none⟩ 0 "t4").2.auth_codes =
      some ⟨some "cid", some "https://a/cb", none, "plain", 300⟩ := by
  decide

/-- C4 amended: the token endpoint removes the code before responding on the
successful path and on an expired lookup; client-credential,
redirect-mismatch and PKCE failures leave the state unchanged. -/
theorem code_removal_policy_C4 (cfg : Config) (st : OAuthState) (p : TokenParams)
    (now : Nat) (fresh : String) :
    (∀ tok tt st', token cfg st p now fresh = (.ok tok tt, st') →
      st'.auth_codes = popCode st.auth_codes p.code) ∧
    (∀ r, p.grant_type = some "authorization_code" →
      lookupCode st.auth_codes p.code = some r → r.expires_at < now →
      token cfg st p now fresh =
        (.err 400 "invalid_grant" none, { st with auth_codes := popCode st.auth_codes p.code })) ∧
    (∀ e st', token cfg st p now fresh = (.err 401 e none, st') → st' = st) ∧
    (∀ e dsc st', token cfg st p now fresh = (.err 400 e (some dsc), st') → st' = st) := by
  refine ⟨?_, ?_, ?_, ?_⟩
  · intro tok tt st' h
    obtain ⟨_, _, _, _, hst⟩ := token_ok_inv h
    rw [hst]
  · intro r hg hl he
    exact token_eq_of_expired hg hl he
  · intro e st' h
    rcases token_pair_cases cfg st p now fresh with hq | hq | hq | hq | hq | ⟨_, _, hq⟩ <;>
      rw [hq] at h
    · simp at h
    · simp at h
    · injection h with h1 h2
      exact h2.symm
    · simp at h
    · simp at h
    · simp [tokenSuccess] at h
  · intro e dsc st' h
    rcases token_pair_cases cfg st p now fresh with hq | hq | hq | hq | hq | ⟨_, _, hq⟩ <;>
      rw [hq] at h
    · simp at h
    · simp at h
    · simp at h
    · injection h with h1 h2
      exact h2.symm
    · injection h with h1 h2
      exact h2.symm
    · simp [tokenSuccess] at h

/-- Witness for C4's amended theorem at a concrete client-secret failure. -/
theorem code_removal_policy_C4_witness :
    token ⟨"cid", "sec", "https://x.example", some "stok"⟩
        ⟨[("c4", ⟨some "cid", some "https://a/cb", none, "plain", 300⟩)], []⟩
        ⟨some "authorization_code", some "c4", some "cid", some "bad", some "https://a/cb", none⟩
        0 "t4" =
      (.err 401 "invalid_client" none,
        ⟨[("c4", ⟨some "cid", some "https://a/cb", none, "plain", 300⟩)], []⟩) ∧
    (⟨[("c4", ⟨some "cid", some "https://a/cb", none, "plain", 300⟩)], []⟩ : OAuthState) =
      ⟨[("c4", ⟨some "cid", some "https://a/cb", none, "plain", 300⟩)], []⟩ :=
  ⟨by decide,
   (code_removal_policy_C4 ⟨"cid", "sec", "https://x.example", some "stok"⟩
       ⟨[("c4", ⟨some "cid", some "https://a/cb", none, "plain", 300⟩)], []⟩
       ⟨some "authorization_code", some "c4", some "cid", some "bad", some "https://a/cb", none⟩
       0 "t4").2.2.1 "invalid_client"
     ⟨[("c4", ⟨some "cid", some "https://a/cb", none, "plain", 300⟩)], []⟩ (by decide)⟩

/-- C6: token-endpoint validation runs in order — grant type, code lookup
and expiry, client credentials, redirect match, PKCE — each failure
short-circuiting with its stated error regardless of the later checks; in
particular a client-secret mismatch with a correct unexpired code and valid
PKCE proof answers invalid_client. -/
theorem token_validation_order_C6 (cfg : Config) (st : OAuthState) (p : TokenParams)
    (now : Nat) (fresh : String) :
    (p.grant_type ≠ some "authorization_code" →
      (token cfg st p now fresh).1 = .err 400 "unsupported_grant_type" none) ∧
    (p.grant_type = some "authorization_code" →
      (lookupCode st.auth_codes p.code = none →
        (token cfg st p now fresh).1 = .err 400 "invalid_grant" none) ∧
      (∀ r, lookupCode st.auth_codes p.code = some r →
        (r.expires_at < now →
          (token cfg st p now fresh).1 = .err 400 "invalid_grant" none) ∧
        (¬ r.expires_at < now →
          ((p.client_id ≠ some cfg.client_id ∨ p.client_secret ≠ some cfg.client_secret →
            (token cfg st p now fresh).1 = .err 401 "invalid_client" none) ∧
          (p.client_id = some cfg.client_id → p.client_secret = some cfg.client_secret →
            (r.redirect_uri ≠ p.redirect_uri →
              (token cfg st p now fresh).1 =
                .err 400 "invalid_grant" (some "redirect_uri mismatch")) ∧
            (r.redirect_uri = p.redirect_uri →
              ((r.code_challenge.getD "" ≠ "" ∧ r.code_challenge_method = "S256" ∧
                  some (sha256_b64url (p.code_verifier.getD "")) ≠ r.code_challenge) ∨
                (r.code_challenge.getD "" ≠ "" ∧ r.code_challenge_method ≠ "S256" ∧
                  p.code_verifier ≠ r.code_challenge) →
                (token cfg st p now fresh).1 =
                  .err 400 "invalid_grant" (some "PKCE verification failed")) ∧
              (r.code_challenge.getD "" = "" ∨
                (r.code_challenge.getD "" ≠ "" ∧ r.code_challenge_method = "S256" ∧
                  some (sha256_b64url (p.code_verifier.getD "")) = r.code_challenge) ∨
                (r.code_challenge.getD "" ≠ "" ∧ r.code_challenge_method ≠ "S256" ∧
                  p.code_verifier = r.code_challenge) →
                (token cfg st p now fresh).1 = .ok fresh "Bearer"))))))) := by
  constructor
  · intro hg
    rw [token_eq_of_bad_grant hg]
  · intro hg
    constructor
    · intro hl
      rw [token_eq_of_no_code hg hl]
    · intro r hl
      constructor
      · intro he
        rw [token_eq_of_expired hg hl he]
      · intro he
        constructor
        · intro hc
          rw [token_eq_of_bad_client hg hl he hc]
        · intro hci hcs
          constructor
          · intro hr
            rw [token_eq_of_redirect_mismatch hg hl he hci hcs hr]
          · intro hr
            constructor
            · intro hfail
              rcases hfail with ⟨hch, hm, hs⟩ | ⟨hch, hm, hv⟩
              · rw [token_eq_of_pkce_fail_s256 hg hl he hci hcs hr hch hm hs]
              · rw [token_eq_of_pkce_fail_plain hg hl he hci hcs hr hch hm hv]
            · intro hok
              rw [token_eq_of_pkce_ok hg hl he hci hcs hr hok]
              rfl

/-- Witness for C6: a concrete secret mismatch with a correct, unexpired
code and a valid plain PKCE proof answers invalid_client. -/
theorem token_validation_order_C6_witness :
    lookupCode
        (⟨[("c6", ⟨some "cid", some "https://a/cb", some "ver", "plain", 300⟩)], []⟩ :
          OAuthState).auth_codes
        (⟨some "authorization_code", some "c6", some "cid", some "bad", some "https://a/cb",
          some "ver"⟩ : TokenParams).code =
      some ⟨some "cid", some "https://a/cb", some "ver", "plain", 300⟩ ∧
    (token ⟨"cid", "sec", "https://x.example", some "stok"⟩
        ⟨[("c6", ⟨some "cid", some "https://a/cb", some "ver", "plain", 300⟩)], []⟩
        ⟨some "authorization_code", some "c6", some "cid", some "bad", some "https://a/cb",
          some "ver"⟩ 0 "t6").1 = .err 401 "invalid_client" none :=
  ⟨by decide,
   (((((token_validation_order_C6 ⟨"cid", "sec", "https://x.example", some "stok"⟩
       ⟨[("c6", ⟨some "cid", some "https://a/cb", some "ver", "plain", 300⟩)], []⟩
       ⟨some "authorization_code", some "c6", some "cid", some "bad", some "https://a/cb",
         some "ver"⟩ 0 "t6").2 (by decide)).2
       ⟨some "cid", some "https://a/cb", some "ver", "plain", 300⟩ (by decide)).2
       (by decide)).1 (Or.inr (by decide)))⟩

/-- C3: with a non-empty stored code_challenge the exchange succeeds exactly
when PKCE verification passes — for method S256 the padding-stripped
base64url SHA-256 of the verifier must equal the stored challenge, for any
other method the verifier must equal the stored challenge — any mismatch
answering invalid_grant with description "PKCE verification failed"; with no
stored challenge (absent or empty) verification is skipped and the exchange
succeeds. -/
theorem pkce_verification_C3 (cfg : Config) (st : OAuthState) (p : TokenParams)
    (now : Nat) (fresh : String) (r : CodeRecord)
    (hg : p.grant_type = some "authorization_code")
    (hl : lookupCode st.auth_codes p.code = some r)
    (he : ¬ r.expires_at < now)
    (hci : p.client_id = some cfg.client_id)
    (hcs : p.client_secret = some cfg.client_secret)
    (hr : r.redirect_uri = p.redirect_uri) :
    (∀ ch, r.code_challenge = some ch → ch ≠ "" →
      (r.code_challenge_method = "S256" →
        (sha256_b64url (p.code_verifier.getD "") = ch →
          (token cfg st p now fresh).1 = .ok fresh "Bearer") ∧
        (sha256_b64url (p.code_verifier.getD "") ≠ ch →
          (token cfg st p now fresh).1 =
            .err 400 "invalid_grant" (some "PKCE verification failed"))) ∧
      (r.code_challenge_method ≠ "S256" →
        (p.code_verifier = some ch →
          (token cfg st p now fresh).1 = .ok fresh "Bearer") ∧
        (p.code_verifier ≠ some ch →
          (token cfg st p now fresh).1 =
            .err 400 "invalid_grant" (some "PKCE verification failed")))) ∧
    (r.code_challenge = none ∨ r.code_challenge = some "" →
      (token cfg st p now fresh).1 = .ok fresh "Bearer") := by
  constructor
  · intro ch hch hne
    have hgd : r.code_challenge.getD "" ≠ "" := by
      rw [hch]
      simpa using hne
    constructor
    · intro hm
      constructor
      · intro hs
        rw [token_eq_of_pkce_ok hg hl he hci hcs hr
          (Or.inr (Or.inl ⟨hgd, hm, by rw [hch, hs]⟩))]
        rfl
      · intro hs
        rw [token_eq_of_pkce_fail_s256 hg hl he hci hcs hr hgd hm
          (by rw [hch]; simpa using hs)]
    · intro hm
      constructor
      · intro hv
        rw [token_eq_of_pkce_ok hg hl he hci hcs hr
          (Or.inr (Or.inr ⟨hgd, hm, by rw [hch, hv]⟩))]
        rfl
      · intro hv
        rw [token_eq_of_pkce_fail_plain hg hl he hci hcs hr hgd hm (by rw [hch]; exact hv)]
  · intro hch
    have hgd : r.code_challenge.getD "" = "" := by
      rcases hch with hch | hch <;> rw [hch] <;> rfl
    rw [token_eq_of_pkce_ok hg hl he hci hcs hr (Or.inl hgd)]
    rfl

/-- Witness for C3 at a concrete plain-method exchange. -/
theorem pkce_verification_C3_witness :
    lookupCode
        (⟨[("c3", ⟨some "cid", some "https://a/cb", some "ver", "plain", 300⟩)], []⟩ :
          OAuthState).auth_codes
        (⟨some "authorization_code", some "c3", some "cid", some "sec", some "https://a/cb",
          some "ver"⟩ : TokenParams).code =
      some ⟨some "cid", some "https://a/cb", some "ver", "plain", 300⟩ ∧
    (token ⟨"cid", "sec", "https://x.example", some "stok"⟩
        ⟨[("c3", ⟨some "cid", some "https://a/cb", some "ver", "plain", 300⟩)], []⟩
        ⟨some "authorization_code", some "c3", some "cid", some "sec", some "https://a/cb",
          some "ver"⟩ 0 "t3").1 = .ok "t3" "Bearer" :=
  ⟨by decide,
   ((((pkce_verification_C3 ⟨"cid", "sec", "https://x.example", some "stok"⟩
       ⟨[("c3", ⟨some "cid", some "https://a/cb", some "ver", "plain", 300⟩)], []⟩
       ⟨some "authorization_code", some "c3", some "cid", some "sec", some "https://a/cb",
         some "ver"⟩ 0 "t3" ⟨some "cid", some "https://a/cb", some "ver", "plain", 300⟩
       (by decide) (by decide) (by decide) (by decide) (by decide) (by decide)).1
       "ver" (by decide) (by decide)).2 (by decide)).1 (by decide))⟩

/-- State left behind by a valid authorize request: the record is stored
under the fresh code with expires_at = now + 300, whether or not the
redirect construction then faults. -/
theorem authorize_snd (cfg : Config) (st : OAuthState) (ap : AuthorizeParams)
    (now : Nat) (c : String)
    (hrt : ap.response_type = some "code") (hci : ap.client_id = some cfg.client_id) :
    (authorize cfg st ap now c).2 =
      { st with auth_codes := (dictSet st.auth_codes c
          ⟨ap.client_id, ap.redirect_uri, ap.code_challenge,
            ap.code_challenge_method.getD "plain", now + 300⟩) } := by
  unfold authorize
  rw [if_neg (fun hn => hn hrt), if_neg (fun hn => hn hci)]
  cases hu : ap.redirect_uri with
  | none => simp [hu]
  | some uri => cases hs : urlsplitE uri <;> simp [hu, hs]

/-- C9: an authorization request supplying code_challenge as the empty
string issues a code whose exchange skips PKCE verification entirely: with
any (or no) code_verifier the exchange succeeds, exactly as when no
code_challenge was supplied at all. -/
theorem empty_challenge_skips_pkce_C9 (cfg : Config) (st : OAuthState)
    (ap : AuthorizeParams) (p : TokenParams) (now now2 : Nat) (c fresh : String)
    (hrt : ap.response_type = some "code")
    (hci : ap.client_id = some cfg.client_id)
    (hch : ap.code_challenge = some "")
    (hg : p.grant_type = some "authorization_code")
    (hcode : p.code = some c)
    (hpci : p.client_id = some cfg.client_id)
    (hpcs : p.client_secret = some cfg.client_secret)
    (hred : p.redirect_uri = ap.redirect_uri)
    (hexp : ¬ now + 300 < now2) :
    (token cfg (authorize cfg st ap now c).2 p now2 fresh).1 = .ok fresh "Bearer" ∧
    (token cfg (authorize cfg st { ap with code_challenge := none } now c).2 p now2 fresh).1 =
      .ok fresh "Bearer" := by
  constructor
  · have hl : lookupCode (authorize cfg st ap now c).2.auth_codes p.code =
        some ⟨ap.client_id, ap.redirect_uri, ap.code_challenge,
          ap.code_challenge_method.getD "plain", now + 300⟩ := by
      rw [authorize_snd cfg st ap now c hrt hci, hcode]
      exact lookup_dictSet_self st.auth_codes c _
    rw [token_eq_of_pkce_ok hg hl hexp hpci hpcs hred.symm (Or.inl (by rw [hch]; rfl))]
    rfl
  · have hl : lookupCode (authorize cfg st { ap with code_challenge := none } now c).2.auth_codes
        p.code =
        some ⟨ap.client_id, ap.redirect_uri, none,
          ap.code_challenge_method.getD "plain", now + 300⟩ := by
      rw [authorize_snd cfg st { ap with code_challenge := none } now c hrt hci, hcode]
      exact lookup_dictSet_self st.auth_codes c _
    rw [token_eq_of_pkce_ok hg hl hexp hpci hpcs hred.symm (Or.inl rfl)]
    rfl

/-- Witness for C9 at a concrete empty-challenge flow. -/
theorem empty_challenge_skips_pkce_C9_witness :
    (token ⟨"cid", "sec", "https://x.example", some "stok"⟩
        (authorize ⟨"cid", "sec", "https://x.example", some "stok"⟩ ⟨[], []⟩
          ⟨some "code", some "cid", some "https://a/cb", none, some "", none⟩ 0 "c9").2
        ⟨some "authorization_code", some "c9", some "cid", some "sec", some "https://a/cb",
          some "anything"⟩ 100 "t7").1 = .ok "t7" "Bearer" ∧
    (token ⟨"cid", "sec", "https://x.example", some "stok"⟩
        (authorize ⟨"cid", "sec", "https://x.example", some "stok"⟩ ⟨[], []⟩
          ⟨some "code", some "cid", some "https://a/cb", none, none, none⟩ 0 "c9").2
        ⟨some "authorization_code", some "c9", some "cid", some "sec", some "https://a/cb",
          some "anything"⟩ 100 "t7").1 = .ok "t7" "Bearer" :=
  empty_challenge_skips_pkce_C9 ⟨"cid", "sec", "https://x.example", some "stok"⟩ ⟨[], []⟩
    ⟨some "code", some "cid", some "https://a/cb", none, some "", none⟩
    ⟨some "authorization_code", some "c9", some "cid", some "sec", some "https://a/cb",
      some "anything"⟩ 0 100 "c9" "t7"
    (by decide) (by decide) (by decide) (by decide) (by decide) (by decide) (by decide)
    (by decide) (by decide)

/-- C5: authorize stores every record with expires_at = issuance time + 300;
a token lookup that finds an expired record behaves identically to finding
none — the record (if any) is removed and the response is invalid_grant with
status 400 and no distinct expired error — and for an expired code the
response does not depend on whether the sweeper has run first. -/
theorem code_expiry_C5 (cfg : Config) (st : OAuthState) (ap : AuthorizeParams)
    (p : TokenParams) (now tnow snow : Nat) (c fresh : String) :
    (ap.response_type = some "code" → ap.client_id = some cfg.client_id →
      ∃ r, List.lookup c ((authorize cfg st ap now c).2.auth_codes) = some r ∧
        r.expires_at = now + 300) ∧
    (p.grant_type = some "authorization_code" →
      (lookupCode st.auth_codes p.code = none ∨
        (∃ r, lookupCode st.auth_codes p.code = some r ∧ r.expires_at < tnow)) →
      token cfg st p tnow fresh =
        (.err 400 "invalid_grant" none,
          { st with auth_codes := popCode st.auth_codes p.code })) ∧
    ((st.auth_codes.map Prod.fst).Nodup → p.grant_type = some "authorization_code" →
      ∀ r, p.code = some c → List.lookup c st.auth_codes = some r → r.expires_at < tnow →
      (token cfg { st with auth_codes := sweep snow st.auth_codes } p tnow fresh).1 =
        (token cfg st p tnow fresh).1) := by
  refine ⟨?_, ?_, ?_⟩
  · intro hrt hci
    rw [authorize_snd cfg st ap now c hrt hci]
    exact ⟨_, lookup_dictSet_self st.auth_codes c _, rfl⟩
  · intro hg hd
    rcases hd with hl | ⟨r, hl, he⟩
    · exact token_eq_of_no_code hg hl
    · exact token_eq_of_expired hg hl he
  · intro hnd hg r hcode hl he
    have hbase : (token cfg st p tnow fresh).1 = .err 400 "invalid_grant" none := by
      rw [token_eq_of_expired hg (by rw [hcode]; exact hl) he]
    have hfl := lookup_filter_nodup hnd hl (fun q => !decide (q.2.expires_at < snow))
    by_cases hkeep : (fun q => !decide (q.2.expires_at < snow)) (c, r) = true
    · have hl' : lookupCode ({ st with auth_codes := sweep snow st.auth_codes} :
          OAuthState).auth_codes p.code = some r := by
        rw [hcode]
        show List.lookup c (sweep snow st.auth_codes) = some r
        rw [sweep, hfl, if_pos hkeep]
      rw [token_eq_of_expired hg hl' he, hbase]
    · have hl' : lookupCode ({ st with auth_codes := sweep snow st.auth_codes} :
          OAuthState).auth_codes p.code = none := by
        rw [hcode]
        show List.lookup c (sweep snow st.auth_codes) = none
        rw [sweep, hfl, if_neg (by simpa using hkeep)]
      rw [token_eq_of_no_code hg hl', hbase]

/-- Witness for C5 at a concrete expired exchange after a sweep opportunity. -/
theorem code_expiry_C5_witness :
    (lookupCode (⟨[("c5", ⟨some "cid", some "https://a/cb", none, "plain", 10⟩)], []⟩ :
        OAuthState).auth_codes
        (⟨some "authorization_code", some "c5", some "cid", some "sec", some "https://a/cb",
          none⟩ : TokenParams).code =
      some ⟨some "cid", some "https://a/cb", none, "plain", 10⟩) ∧
    token ⟨"cid", "sec", "https://x.example", some "stok"⟩
        ⟨[("c5", ⟨some "cid", some "https://a/cb", none, "plain", 10⟩)], []⟩
        ⟨some "authorization_code", some "c5", some "cid", some "sec", some "https://a/cb",
          none⟩ 311 "t5" =
      (.err 400 "invalid_grant" none, ⟨[], []⟩) :=
  ⟨by decide,
   (code_expiry_C5 ⟨"cid", "sec", "https://x.example", some "stok"⟩
       ⟨[("c5", ⟨some "cid", some "https://a/cb", none, "plain", 10⟩)], []⟩
       ⟨some "code", none, none, none, none, none⟩
       ⟨some "authorization_code", some "c5", some "cid", some "sec", some "https://a/cb",
         none⟩ 0 311 60 "c5" "t5").2.1 (by decide)
     (Or.inr ⟨⟨some "cid", some "https://a/cb", none, "plain", 10⟩, by decide, by decide⟩)⟩

/-- isPrefixOf is exactly prefix decomposition. -/
theorem isPrefixOf_iff_append (p l : List Char) :
    p.isPrefixOf l = true ↔ ∃ t, l = p ++ t := by
  induction p generalizing l with
  | nil => simp [List.isPrefixOf]
  | cons a as ih =>
    cases l with
    | nil => simp [List.isPrefixOf]
    | cons b bs =>
      simp only [List.isPrefixOf, Bool.and_eq_true, beq_iff_eq, ih, List.cons_append,
        List.cons.injEq]
      constructor
      · rintro ⟨hab, t, ht⟩
        exact ⟨t, hab.symm, ht⟩
      · rintro ⟨t, hba, ht⟩
        exact ⟨hba.symm, t, ht⟩

/-- A header that starts with the Bearer prefix decomposes as the prefix
followed by the extracted token. -/
theorem strStartsWith_bearer_iff (a : String) :
    strStartsWith a "Bearer " = true ↔ ∃ t, a = "Bearer " ++ t := by
  rw [strStartsWith, isPrefixOf_iff_append]
  constructor
  · rintro ⟨t, ht⟩
    refine ⟨String.mk t, String.ext ?_⟩
    rw [String.data_append]
    exact ht
  · rintro ⟨t, ht⟩
    exact ⟨t.data, by rw [ht, String.data_append]⟩

/-- Dropping the 7-character Bearer prefix recovers the token. -/
theorem strDrop_bearer (t : String) : strDrop ("Bearer " ++ t) 7 = t := by
  apply String.ext
  show ("Bearer " ++ t).data.drop 7 = t.data
  rw [String.data_append]
  have h7 : ("Bearer ".data).length = 7 := by decide
  rw [← h7]
  exact List.drop_left _ _

/-- The concatenation "Bearer " ++ t is never the empty header. -/
theorem bearer_append_ne_empty (t : String) : "Bearer " ++ t ≠ "" := by
  intro h
  have hd := congrArg String.data h
  rw [String.data_append] at hd
  have hlen := congrArg List.length hd
  simp [List.length_append] at hlen

/-- A token run never puts the empty string into the Token Store: it only
ever inserts the fresh secrets.token_hex value, which is never empty.  This
maintains the store invariant assumed by the bearer-validator theorem. -/
theorem token_no_empty_token {cfg : Config} {st : OAuthState} {p : TokenParams}
    {now : Nat} {fresh : String} (hf : fresh ≠ "")
    (h : "" ∉ st.access_tokens) : "" ∉ (token cfg st p now fresh).2.access_tokens := by
  rcases token_pair_cases cfg st p now fresh with hq | hq | hq | hq | hq | ⟨_, _, hq⟩ <;>
    rw [hq]
  · exact h
  · exact h
  · exact h
  · exact h
  · exact h
  · show "" ∉ st.access_tokens.insert fresh
    intro hm
    rcases List.mem_insert_iff.mp hm with he | hm'
    · exact hf he.symm
    · exact h hm'

/-- C2: the bearer validator accepts exactly the headers made of the
case-sensitive prefix "Bearer " followed by the configured non-empty static
token or a Token Store member (the store never holding the empty token, an
invariant the token endpoint maintains); a header without the prefix yields
the empty token and fails, an absent header is rejected, and with the static
slot unset or empty and an empty store no input validates. -/
theorem bearer_validator_C2 (cfg : Config) (toks : List String) (hno : "" ∉ toks) :
    (∀ auth, validate_token cfg toks auth = true ↔
      ∃ t, auth = some ("Bearer " ++ t) ∧
        ((∃ s, cfg.static_token = some s ∧ s ≠ "" ∧ t = s) ∨ t ∈ toks)) ∧
    (∀ a, strStartsWith a "Bearer " = false → validate_token cfg toks (some a) = false) ∧
    validate_token cfg toks none = false ∧
    ((cfg.static_token = none ∨ cfg.static_token = some "") → toks = [] →
      ∀ auth, validate_token cfg toks auth = false) := by
  have hstatic : ∀ t : String,
      (cfg.static_token.getD "" ≠ "" ∧ t = cfg.static_token.getD "") ↔
      (∃ s, cfg.static_token = some s ∧ s ≠ "" ∧ t = s) := by
    intro t
    cases hs : cfg.static_token with
    | none => simp
    | some s => simp [Option.getD]
  have hmain : ∀ auth, validate_token cfg toks auth = true ↔
      ∃ t, auth = some ("Bearer " ++ t) ∧
        ((∃ s, cfg.static_token = some s ∧ s ≠ "" ∧ t = s) ∨ t ∈ toks) := by
    intro auth
    cases auth with
    | none =>
      simp [validate_token]
    | some a =>
      by_cases ha : a = ""
      · subst ha
        simp only [validate_token, Option.getD, if_pos rfl]
        constructor
        · intro h
          exact absurd h (by simp)
        · rintro ⟨t, ht, _⟩
          exact absurd (Option.some.inj ht).symm (bearer_append_ne_empty t)
      · by_cases hpre : strStartsWith a "Bearer " = true
        · obtain ⟨t, rfl⟩ := (strStartsWith_bearer_iff a).mp hpre
          have hval : validate_token cfg toks (some ("Bearer " ++ t)) =
              (if cfg.static_token.getD "" ≠ "" ∧ t = cfg.static_token.getD "" then true
               else toks.contains t) := by
            rw [validate_token]
            simp only [Option.getD, if_neg ha, hpre, if_pos, strDrop_bearer]
          rw [hval]
          constructor
          · intro h
            refine ⟨t, rfl, ?_⟩
            by_cases hc : cfg.static_token.getD "" ≠ "" ∧ t = cfg.static_token.getD ""
            · exact Or.inl ((hstatic t).mp hc)
            · rw [if_neg hc] at h
              exact Or.inr (by simpa using h)
          · rintro ⟨t', ht', hor⟩
            have htt : t' = t := by
              have := Option.some.inj ht'
              have hd := congrArg String.data this
              rw [String.data_append, String.data_append] at hd
              exact String.ext (List.append_cancel_left hd).symm
            subst htt
            rcases hor with hsm | hmem
            · rw [if_pos ((hstatic t').mpr hsm)]
            · by_cases hc : cfg.static_token.getD "" ≠ "" ∧ t' = cfg.static_token.getD ""
              · rw [if_pos hc]
              · rw [if_neg hc]
                simpa using hmem
        · have hval : validate_token cfg toks (some a) =
              (if cfg.static_token.getD "" ≠ "" ∧ "" = cfg.static_token.getD "" then true
               else toks.contains "") := by
            rw [validate_token]
            simp only [Option.getD, if_neg ha, hpre, if_neg, Bool.false_eq_true, if_false]
          rw [hval]
          constructor
          · intro h
            by_cases hc : cfg.static_token.getD "" ≠ "" ∧ "" = cfg.static_token.getD ""
            · exact absurd hc.2.symm hc.1
            · rw [if_neg hc] at h
              exact absurd (by simpa using h) hno
          · rintro ⟨t, ht, _⟩
            exact absurd ((strStartsWith_bearer_iff a).mpr ⟨t, Option.some.inj ht⟩) hpre
  refine ⟨hmain, ?_, ?_, ?_⟩
  · intro a hpre
    rw [← Bool.not_eq_true]
    intro h
    obtain ⟨t, ht, _⟩ := (hmain (some a)).mp h
    have hp := (strStartsWith_bearer_iff a).mpr ⟨t, Option.some.inj ht⟩
    rw [hpre] at hp
    cases hp
  · simp [validate_token]
  · intro hs htoks auth
    rw [← Bool.not_eq_true]
    intro h
    obtain ⟨t, _, hor⟩ := (hmain auth).mp h
    rcases hor with ⟨s, hss, hne, _⟩ | hmem
    · rcases hs with hs | hs <;> rw [hs] at hss
      · cases hss
      · exact hne (Option.some.inj hss).symm
    · rw [htoks] at hmem
      cases hmem

/-- Witness for C2 at a concrete store-issued token. -/
theorem bearer_validator_C2_witness :
    ("" ∉ ["t1"]) ∧
    validate_token ⟨"cid", "sec", "https://x.example", some "stok"⟩ ["t1"]
      (some "Bearer t1") = true :=
  ⟨by decide,
   ((bearer_validator_C2 ⟨"cid", "sec", "https://x.example", some "stok"⟩ ["t1"]
       (by decide)).1 (some "Bearer t1")).mpr
     ⟨"t1", rfl, Or.inr (by decide)⟩⟩

